import Mathlib

/-!
Verification development for the EKYC web application
(`src/EKYCWebApplication`).  The definitions below are a shallow embedding
of the client hooks `useKYC.js` (submission CRUD and realtime cache sync)
and `useAdmin.js` (review workflow), together with the review-screen
handlers of `AppRouter.jsx`.  The remote relational store, the injected
failure behaviour of each remote call, and the trace of remote calls issued
are made explicit so that claims about validation ordering, forced fields,
status transitions, audit logging and cache ordering can be stated and
proved.  Timestamps are abstract naturals; strings model JS strings with
`slice` taken over the character list.
-/

namespace EKYC

/-- A row of the `kyc_submissions` table (schema documented at the top of
useKYC.js).  `dob` is a date string or SQL null; `documents` is an opaque
list of storage references. -/
structure Submission where
  id : Nat
  user_id : Nat
  first_name : String
  last_name : String
  dob : Option String
  address : String
  document_type : String
  document_number : String
  status : String
  created_at : Nat
  updated_at : Nat
  documents : List String
deriving DecidableEq

/-- A row of the `kyc_audit_logs` table, as built by `writeAuditLog` in
useAdmin.js: `{ submission_id, action, notes: notes || '', actor_user_id,
created_at }`. -/
structure AuditEntry where
  submission_id : Nat
  action : String
  notes : String
  actor_user_id : Option Nat
  created_at : Nat
deriving DecidableEq

/-- The remote store state: the submissions table and the audit-log table. -/
structure DB where
  subs : List Submission
  logs : List AuditEntry
deriving DecidableEq

/-- The `insertPayload` object built by `createSubmission` in useKYC.js:
the sanitized text fields spread together with the forced `user_id` and
`status` keys. -/
structure InsertRecord where
  first_name : String
  last_name : String
  address : String
  document_type : String
  document_number : String
  dob : Option String
  user_id : Nat
  status : String
deriving DecidableEq

/-- The partial `payload` object built by `updateSubmission` in useKYC.js:
a field is `none` when the corresponding key was absent from `updates` and
therefore not sent.  The inner Option of `dob` is SQL null. -/
structure UpdatePayload where
  first_name : Option String
  last_name : Option String
  address : Option String
  document_type : Option String
  document_number : Option String
  dob : Option (Option String)
  status : Option String
  documents : Option (List String)
deriving DecidableEq

/-- Admin list filters of useAdmin.js (`status`, `search`, `docType`). -/
structure Filters where
  status : String
  search : String
  docType : String
deriving DecidableEq

/-- Remote calls an operation can issue, recorded in issue order.  Claims
of the form "no remote call is made" are stated as an empty trace. -/
inductive RemoteOp where
  | insertSubmission (ins : InsertRecord)
  | updateOwned (id : Nat) (uid : Nat) (payload : UpdatePayload)
  | deleteOwned (id : Nat) (uid : Nat)
  | selectMine (uid : Nat)
  | selectCount (f : Filters)
  | selectPage (f : Filters) (fromIdx toIdx : Nat)
  | selectById (id : Nat)
  | updateStatus (id : Nat) (status : String)
  | insertAudit (e : AuditEntry)
deriving DecidableEq

/-- Injected outcome of each kind of remote call: `some msg` makes that
call fail with the given Supabase error message, `none` lets it succeed
against the modelled store. -/
structure Env where
  insertErr : Option String
  updateErr : Option String
  auditErr : Option String
  fetchErr : Option String
  countErr : Option String
deriving DecidableEq

/-- Result value of a hook operation: `{ data, error }` with exactly one
side populated. -/
inductive Res (α : Type) where
  | err (msg : String)
  | ok (data : α)
deriving DecidableEq

/-! ### String sanitisation (useKYC.js lines 315-331 / 376-391) -/

/-- JS `s.slice(0, cap)`, modelled over the character list. -/
def sliceTo (cap : Nat) (s : String) : String := String.mk (s.data.take cap)

/-- JS `s.trim()`: drop whitespace from both ends, modelled over the
character list. -/
def jsTrim (s : String) : String :=
  String.mk
    (((s.data.dropWhile Char.isWhitespace).reverse.dropWhile
        Char.isWhitespace).reverse)

/-- JS `s.toLowerCase()`, modelled characterwise. -/
def jsToLower (s : String) : String := String.mk (s.data.map Char.toLower)

/-- `String(v || '').trim().slice(0, cap)`: an absent or empty field
defaults to the empty string, then is whitespace-trimmed and truncated. -/
def sanitizeField (cap : Nat) (v : Option String) : String :=
  sliceTo cap (jsTrim (v.getD ""))

/-- The regular expression `^\d{4}-\d{2}-\d{2}$` used for `dob`. -/
def dobRegexMatch (s : String) : Bool :=
  match s.data with
  | [y1, y2, y3, y4, h1, m1, m2, h2, d1, d2] =>
      y1.isDigit && y2.isDigit && y3.isDigit && y4.isDigit &&
      h1 == '-' && m1.isDigit && m2.isDigit && h2 == '-' &&
      d1.isDigit && d2.isDigit
  | _ => false

/-- The `payload` argument of `createSubmission`: every field the function
reads, plus the caller-supplied `status` and `user_id` keys that the
function never reads. -/
structure KYCPayload where
  first_name : Option String
  last_name : Option String
  address : Option String
  document_type : Option String
  document_number : Option String
  dob : Option String
  status : Option String
  user_id : Option Nat
deriving DecidableEq

/-- The dob branch of `createSubmission`: `if (payload.dob)` (truthy means
present and non-empty) validate against the regex, else `clean.dob =
null`. -/
def cleanDob (dob : Option String) : Except String (Option String) :=
  match dob with
  | some s =>
      if s = "" then .ok none
      else if dobRegexMatch s then .ok (some s)
      else .error "DOB must be in YYYY-MM-DD format"
  | none => .ok none

/-- Store semantics of `.insert(payload).select(...).single()`: the row is
appended with fresh id and timestamps and echoed back. -/
def serverInsert (db : DB) (ins : InsertRecord) (freshId now : Nat) :
    DB × Submission :=
  let row : Submission :=
    { id := freshId, user_id := ins.user_id,
      first_name := ins.first_name, last_name := ins.last_name,
      dob := ins.dob, address := ins.address,
      document_type := ins.document_type,
      document_number := ins.document_number,
      status := ins.status, created_at := now, updated_at := now,
      documents := [] }
  ({ db with subs := db.subs ++ [row] }, row)

/-- Outcome of a useKYC write: new store state, the ordered trace of
remote calls, the `{ data, error }` result, and the local `submissions`
cache afterwards. -/
structure KYCOutcome where
  db : DB
  calls : List RemoteOp
  result : Res Submission
  cache : List Submission
deriving DecidableEq

/-- `createSubmission(payload)` of useKYC.js.  `user` is the session user
id (none when signed out); `cache` is the current `submissions` state;
`freshId`/`now` are the store-assigned id and timestamp. -/
def createSubmission (user : Option Nat) (env : Env) (db : DB)
    (cache : List Submission) (freshId now : Nat) (p : KYCPayload) :
    KYCOutcome :=
  match user with
  | none => ⟨db, [], .err "Not authenticated", cache⟩
  | some uid =>
    match cleanDob p.dob with
    | .error m => ⟨db, [], .err m, cache⟩
    | .ok dobv =>
      let ins : InsertRecord :=
        { first_name := sanitizeField 100 p.first_name,
          last_name := sanitizeField 100 p.last_name,
          address := sanitizeField 500 p.address,
          document_type := sanitizeField 50 p.document_type,
          document_number := sanitizeField 100 p.document_number,
          dob := dobv, user_id := uid, status := "pending" }
      match env.insertErr with
      | some e => ⟨db, [.insertSubmission ins], .err e, cache⟩
      | none =>
        let r := serverInsert db ins freshId now
        ⟨r.1, [.insertSubmission ins], .ok r.2, r.2 :: cache⟩

/-- The `updates` argument of `updateSubmission`: outer `none` is an
absent key (`typeof === 'undefined'`); for `dob` the inner `none` is an
explicit null/empty value. -/
structure UpdateInput where
  first_name : Option String
  last_name : Option String
  address : Option String
  document_type : Option String
  document_number : Option String
  dob : Option (Option String)
  status : Option String
  documents : Option (List String)
deriving DecidableEq

/-- The payload-building prefix of `updateSubmission`: sanitize each
present field; for a present `dob`, a falsy value becomes null and a
non-null value must match the regex or the whole call aborts. -/
def buildUpdatePayload (u : UpdateInput) : Except String UpdatePayload :=
  let dobRes : Except String (Option (Option String)) :=
    match u.dob with
    | none => .ok none
    | some v =>
      match (match v with
             | some s => if s = "" then none else some s
             | none => none : Option String) with
      | some s =>
          if dobRegexMatch s then .ok (some (some s))
          else .error "DOB must be in YYYY-MM-DD format"
      | none => .ok (some none)
  match dobRes with
  | .error m => .error m
  | .ok dobv =>
      .ok { first_name := u.first_name.map (fun v => sanitizeField 100 (some v)),
            last_name := u.last_name.map (fun v => sanitizeField 100 (some v)),
            address := u.address.map (fun v => sanitizeField 500 (some v)),
            document_type := u.document_type.map (fun v => sanitizeField 50 (some v)),
            document_number := u.document_number.map (fun v => sanitizeField 100 (some v)),
            dob := dobv,
            status := u.status.map (fun v => jsToLower (jsTrim v)),
            documents := u.documents }

/-- Server-side shallow application of an update payload to a row
(`updated_at` refreshed by the store). -/
def applyUpdatePayload (s : Submission) (p : UpdatePayload) (now : Nat) :
    Submission :=
  { s with
    first_name := p.first_name.getD s.first_name,
    last_name := p.last_name.getD s.last_name,
    address := p.address.getD s.address,
    document_type := p.document_type.getD s.document_type,
    document_number := p.document_number.getD s.document_number,
    dob := p.dob.getD s.dob,
    status := p.status.getD s.status,
    documents := p.documents.getD s.documents,
    updated_at := now }

/-- Store semantics of `.update(payload).eq('id', id).eq('user_id',
uid).select(...).single()`: none when no owned row matches (`.single()`
fails). -/
def serverUpdateOwned (db : DB) (id uid : Nat) (p : UpdatePayload)
    (now : Nat) : Option (DB × Submission) :=
  match db.subs.find? (fun s => s.id == id && s.user_id == uid) with
  | none => none
  | some s =>
      some ({ db with subs := db.subs.map (fun t =>
                if t.id == id && t.user_id == uid
                then applyUpdatePayload t p now else t) },
            applyUpdatePayload s p now)

/-- `updateSubmission(id, updates)` of useKYC.js. -/
def updateSubmission (user : Option Nat) (env : Env) (db : DB)
    (cache : List Submission) (now : Nat) (id : Option Nat)
    (u : UpdateInput) : KYCOutcome :=
  match user with
  | none => ⟨db, [], .err "Not authenticated", cache⟩
  | some uid =>
    match id with
    | none => ⟨db, [], .err "Submission id is required", cache⟩
    | some sid =>
      match buildUpdatePayload u with
      | .error m => ⟨db, [], .err m, cache⟩
      | .ok pay =>
        match env.updateErr with
        | some e => ⟨db, [.updateOwned sid uid pay], .err e, cache⟩
        | none =>
          match serverUpdateOwned db sid uid pay now with
          | none =>
              ⟨db, [.updateOwned sid uid pay], .err "single row not found",
               cache⟩
          | some r =>
              ⟨r.1, [.updateOwned sid uid pay], .ok r.2,
               cache.map (fun s => if s.id == sid then r.2 else s)⟩

/-! ### Ordering by `created_at` descending -/

/-- One insertion step of the descending-by-`created_at` sort
(`.sort((a, b) => new Date(b.created_at) - new Date(a.created_at))`).
The incoming element passes only elements strictly newer than it, so
records with equal `created_at` keep their original relative order, as
JS `Array.prototype.sort` is stable. -/
def insertDesc (x : Submission) : List Submission → List Submission
  | [] => [x]
  | y :: ys =>
      if x.created_at < y.created_at then y :: insertDesc x ys
      else x :: y :: ys

/-- Stable sort by `created_at` descending. -/
def sortByCreatedDesc (l : List Submission) : List Submission :=
  l.foldr insertDesc []

/-- Store semantics of `.select(...).eq('user_id', uid).order('created_at',
{ ascending: false })`. -/
def serverListFor (db : DB) (uid : Nat) : List Submission :=
  sortByCreatedDesc (db.subs.filter (fun s => s.user_id == uid))

/-- Outcome of `fetchMySubmissions`: trace, result, and the `submissions`
cache afterwards (the previous cache is always overwritten). -/
structure FetchMineOutcome where
  calls : List RemoteOp
  result : Res (List Submission)
  cache : List Submission
deriving DecidableEq

/-- `fetchMySubmissions()` of useKYC.js. -/
def fetchMySubmissions (user : Option Nat) (env : Env) (db : DB) :
    FetchMineOutcome :=
  match user with
  | none => ⟨[], .err "Not authenticated", []⟩
  | some uid =>
    match env.fetchErr with
    | some e => ⟨[.selectMine uid], .err e, []⟩
    | none =>
      let rows := serverListFor db uid
      ⟨[.selectMine uid], .ok rows, rows⟩

/-! ### Realtime cache synchronisation (`startRealtime` handler) -/

/-- The `new` row carried by a realtime event, as a JS object spread: a
field is `none` when the key is absent from the event object and therefore
untouched by `{ ...s, ...newRow }`. -/
structure RowPatch where
  id : Nat
  user_id : Option Nat
  first_name : Option String
  last_name : Option String
  dob : Option (Option String)
  address : Option String
  document_type : Option String
  document_number : Option String
  status : Option String
  created_at : Option Nat
  updated_at : Option Nat
  documents : Option (List String)
deriving DecidableEq

/-- `{ ...s, ...newRow }`: every key present in the event overwrites the
cached value; absent keys keep the cached value. -/
def mergeRow (s : Submission) (p : RowPatch) : Submission :=
  { id := p.id,
    user_id := p.user_id.getD s.user_id,
    first_name := p.first_name.getD s.first_name,
    last_name := p.last_name.getD s.last_name,
    dob := p.dob.getD s.dob,
    address := p.address.getD s.address,
    document_type := p.document_type.getD s.document_type,
    document_number := p.document_number.getD s.document_number,
    status := p.status.getD s.status,
    created_at := p.created_at.getD s.created_at,
    updated_at := p.updated_at.getD s.updated_at,
    documents := p.documents.getD s.documents }

/-- The UPDATE branch of the realtime handler:
`prev.map((s) => (s.id === newRow.id ? { ...s, ...newRow } : s))` — no
re-sort. -/
def applyUpdateEvent (p : RowPatch) (prev : List Submission) :
    List Submission :=
  prev.map (fun s => if s.id == p.id then mergeRow s p else s)

/-- The INSERT branch of the realtime handler: replace if present else
prepend, then re-sort by `created_at` descending. -/
def applyInsertEvent (newRow : Submission) (prev : List Submission) :
    List Submission :=
  let updated :=
    if prev.any (fun s => s.id == newRow.id)
    then prev.map (fun s => if s.id == newRow.id then newRow else s)
    else newRow :: prev
  sortByCreatedDesc updated

/-- The DELETE branch of the realtime handler. -/
def applyDeleteEvent (oldId : Nat) (prev : List Submission) :
    List Submission :=
  prev.filter (fun s => s.id != oldId)

/-! ### Review workflow (useAdmin.js) -/

/-- The `{ id, status, updated_at }` row echoed by the status-update
query. -/
structure StatusRow where
  id : Nat
  status : String
  updated_at : Nat
deriving DecidableEq

/-- Outcome of a review operation: the store afterwards, the trace, the
returned error, the returned data row, and the `console.warn` surface for
a failed audit write. -/
structure AdminOutcome where
  db : DB
  calls : List RemoteOp
  error : Option String
  dataRow : Option StatusRow
  auditWarning : Option String
deriving DecidableEq

/-- The audit entry `writeAuditLog` builds: `notes: notes || ''`. -/
def mkAuditEntry (sid : Nat) (action : String) (notes : Option String)
    (actor : Option Nat) (now : Nat) : AuditEntry :=
  ⟨sid, action, notes.getD "", actor, now⟩

/-- `writeAuditLog(submissionId, action, notes)` of useAdmin.js: a plain
insert returning `{ error }`. -/
def writeAuditLog (env : Env) (db : DB) (sid : Nat) (action : String)
    (notes : Option String) (actor : Option Nat) (now : Nat) :
    DB × Option String :=
  match env.auditErr with
  | some e => (db, some e)
  | none =>
      ({ db with logs := db.logs ++ [mkAuditEntry sid action notes actor now] },
       none)

/-- Store semantics of `.update({ status }).eq('id', submissionId)`: every
row with the given id (scoped by id only, not by current status) gets the
new status and a refreshed `updated_at`. -/
def setStatusRows (db : DB) (sid : Nat) (st : String) (now : Nat) : DB :=
  { db with subs := db.subs.map (fun s =>
      if s.id == sid then { s with status := st, updated_at := now } else s) }

/-- Common body of `approveSubmission` / `rejectSubmission` /
`requestMoreInfo`, which in the source are textually identical up to the
target status and the audit action: admin gate, id gate, unconditional
status update scoped only by id, then a best-effort audit insert whose
failure is warned about but does not fail the operation. -/
def reviewOp (targetStatus action : String) (user : Option Nat)
    (isAdmin : Bool) (env : Env) (db : DB) (now : Nat) (sid : Option Nat)
    (notes : Option String) : AdminOutcome :=
  if user.isNone || !isAdmin then
    ⟨db, [], some "Admin access required", none, none⟩
  else
    match sid with
    | none => ⟨db, [], some "submissionId is required", none, none⟩
    | some sid =>
      match env.updateErr with
      | some e => ⟨db, [.updateStatus sid targetStatus], some e, none, none⟩
      | none =>
        if db.subs.any (fun s => s.id == sid) then
          let wr := writeAuditLog env (setStatusRows db sid targetStatus now)
            sid action notes user now
          ⟨wr.1,
           [.updateStatus sid targetStatus,
            .insertAudit (mkAuditEntry sid action notes user now)],
           none, some ⟨sid, targetStatus, now⟩, wr.2⟩
        else
          ⟨db, [.updateStatus sid targetStatus], some "single row not found",
           none, none⟩

/-- `approveSubmission(submissionId, notes)` of useAdmin.js. -/
def approveSubmission : Option Nat → Bool → Env → DB → Nat → Option Nat →
    Option String → AdminOutcome :=
  reviewOp "approved" "approved"

/-- `rejectSubmission(submissionId, notes)` of useAdmin.js. -/
def rejectSubmission : Option Nat → Bool → Env → DB → Nat → Option Nat →
    Option String → AdminOutcome :=
  reviewOp "rejected" "rejected"

/-- `requestMoreInfo(submissionId, notes)` of useAdmin.js. -/
def requestMoreInfo : Option Nat → Bool → Env → DB → Nat → Option Nat →
    Option String → AdminOutcome :=
  reviewOp "pending" "request_info"

/-- `containsSeq needle hay`: does `needle` occur contiguously in `hay`? -/
def containsSeq : List Char → List Char → Bool
  | needle, [] => needle.isEmpty
  | needle, c :: t => needle.isPrefixOf (c :: t) || containsSeq needle t

/-- Case-insensitive substring match, the model of `ilike '%s%'`. -/
def strILike (hay needle : String) : Bool :=
  containsSeq (jsToLower needle).data (jsToLower hay).data

/-- `_applyFilters` of useAdmin.js as a row predicate. -/
def matchesFilters (f : Filters) (s : Submission) : Bool :=
  (f.status == "" || f.status == "all" || s.status == f.status) &&
  (f.docType == "" || f.docType == "all" || s.document_type == f.docType) &&
  (jsTrim f.search == "" ||
    (strILike s.first_name (jsTrim f.search) ||
     strILike s.last_name (jsTrim f.search) ||
     strILike s.document_number (jsTrim f.search)))

/-- Outcome of the admin list fetch. -/
structure AdminListOutcome where
  calls : List RemoteOp
  error : Option String
  data : Option (List Submission)
  total : Nat
deriving DecidableEq

/-- `fetchSubmissions(opts)` of useAdmin.js: admin gate, exact count query,
then a page slice of the filtered rows ordered by `created_at`
descending. -/
def fetchSubmissions (user : Option Nat) (isAdmin : Bool) (env : Env)
    (db : DB) (f : Filters) (page pageSize : Nat) : AdminListOutcome :=
  if user.isNone || !isAdmin then ⟨[], some "Admin access required", none, 0⟩
  else
    match env.countErr with
    | some e => ⟨[.selectCount f], some e, none, 0⟩
    | none =>
      let cnt := (db.subs.filter (matchesFilters f)).length
      let fromIdx := (page - 1) * pageSize
      match env.fetchErr with
      | some e =>
          ⟨[.selectCount f, .selectPage f fromIdx (fromIdx + pageSize - 1)],
           some e, none, 0⟩
      | none =>
          let rows :=
            ((sortByCreatedDesc (db.subs.filter (matchesFilters f))).drop
              fromIdx).take pageSize
          ⟨[.selectCount f, .selectPage f fromIdx (fromIdx + pageSize - 1)],
           none, some rows, cnt⟩

/-- `fetchSubmissionById(id)` of useAdmin.js. -/
def fetchSubmissionById (user : Option Nat) (isAdmin : Bool) (env : Env)
    (db : DB) (id : Option Nat) : List RemoteOp × Res Submission :=
  if user.isNone || !isAdmin then ([], .err "Admin access required")
  else
    match id with
    | none => ([], .err "submissionId is required")
    | some sid =>
      match env.fetchErr with
      | some e => ([.selectById sid], .err e)
      | none =>
        match db.subs.find? (fun s => s.id == sid) with
        | some s => ([.selectById sid], .ok s)
        | none => ([.selectById sid], .err "single row not found")

/-! ### Review-screen handlers (AppRouter.jsx) -/

/-- `handleReject` of the review screen: a notes gate (`!notes ||
notes.trim().length < 3`) in front of `rejectSubmission`; the gate sets an
error message and invokes nothing. -/
def handleReject (user : Option Nat) (isAdmin : Bool) (env : Env) (db : DB)
    (now : Nat) (sid : Option Nat) (notes : String) : AdminOutcome :=
  if notes == "" || (jsTrim notes).length < 3 then
    ⟨db, [], some "Please provide rejection reason in notes (min 3 chars).",
     none, none⟩
  else rejectSubmission user isAdmin env db now sid (some notes)

/-- `handleRequestInfo` of the review screen: the same notes gate in front
of `requestMoreInfo`. -/
def handleRequestInfo (user : Option Nat) (isAdmin : Bool) (env : Env)
    (db : DB) (now : Nat) (sid : Option Nat) (notes : String) :
    AdminOutcome :=
  if notes == "" || (jsTrim notes).length < 3 then
    ⟨db, [],
     some "Please describe what information is required (min 3 chars).",
     none, none⟩
  else requestMoreInfo user isAdmin env db now sid (some notes)

/-! ### Auxiliary predicates and concrete fixtures -/

/-- The error side of a result, `none` when the operation succeeded. -/
def resError {α : Type} : Res α → Option String
  | .err m => some m
  | .ok _ => none

/-- Sorted by `created_at` descending, ties allowed. -/
abbrev SortedDesc (l : List Submission) : Prop :=
  l.Pairwise (fun a b => b.created_at ≤ a.created_at)

/-- Sorted by `created_at` strictly descending. -/
abbrev StrictSortedDesc (l : List Submission) : Prop :=
  l.Pairwise (fun a b => b.created_at < a.created_at)

/-- Environment in which every remote call succeeds. -/
def env0 : Env := ⟨none, none, none, none, none⟩

/-- Environment in which only the audit-log insert fails. -/
def envAuditFail : Env := ⟨none, none, some "audit insert failed", none, none⟩

/-- The default admin filters (`status: 'all'`, empty search, `docType:
'all'`). -/
def filtersAll : Filters := ⟨"all", "", "all"⟩

/-- A pending submission owned by user 7. -/
def sub1 : Submission :=
  ⟨1, 7, "Ann", "Lee", some "1990-01-01", "1 Main", "passport", "P123",
   "pending", 10, 10, []⟩

/-- A store holding just `sub1`. -/
def db1 : DB := ⟨[sub1], []⟩

/-- An already approved submission. -/
def sub2 : Submission :=
  ⟨2, 8, "Bob", "Kim", none, "2 Oak", "passport", "P9", "approved", 20, 20,
   []⟩

/-- A store holding just the approved `sub2`. -/
def dbA : DB := ⟨[sub2], []⟩

/-- Two submissions of user 7 sharing the same `created_at`. -/
def subT1 : Submission :=
  ⟨1, 7, "Ann", "Lee", none, "1 Main", "passport", "P1", "pending", 5, 5, []⟩

/-- Second submission with the tied timestamp. -/
def subT2 : Submission :=
  ⟨2, 7, "Ann", "Lee", none, "1 Main", "passport", "P2", "pending", 5, 5, []⟩

/-- A store holding the two tied submissions. -/
def dbT : DB := ⟨[subT1, subT2], []⟩

/-- A create payload that tries to smuggle in `status: 'approved'` and a
foreign `user_id`. -/
def pay1 : KYCPayload :=
  ⟨some "Ann", some "Lee", some "1 Main", some "passport", some "P123",
   some "1990-01-01", some "approved", some 99⟩

/-- A 101-character name, one character over the cap. -/
def longName : String := String.mk (List.replicate 101 'a')

/-- A create payload whose first name exceeds the 100-character cap. -/
def payLong : KYCPayload :=
  ⟨some longName, some "Lee", some "1 Main", some "passport", some "P123",
   none, none, none⟩

/-- The insert record `createSubmission` builds from `pay1` for user 7. -/
def insRec1 : InsertRecord :=
  ⟨"Ann", "Lee", "1 Main", "passport", "P123", some "1990-01-01", 7,
   "pending"⟩

/-- The row the store echoes for that insert (id 1, timestamp 10). -/
def row1 : Submission :=
  ⟨1, 7, "Ann", "Lee", some "1990-01-01", "1 Main", "passport", "P123",
   "pending", 10, 10, []⟩

/-- An update that changes the first name and leaves `dob` absent. -/
def updIn1 : UpdateInput :=
  ⟨some "Anne", none, none, none, none, none, none, none⟩

/-- A cached record with the newer timestamp (id 1). -/
def subA : Submission :=
  ⟨1, 7, "Ann", "Lee", none, "1 Main", "passport", "PA", "pending", 10, 10,
   []⟩

/-- A cached record with the older timestamp (id 2). -/
def subX : Submission :=
  ⟨2, 7, "Xia", "Lee", none, "2 Oak", "passport", "PX", "pending", 5, 5, []⟩

/-- An update event for id 2 that moves its `created_at` ahead of id 1. -/
def patchMove : RowPatch :=
  ⟨2, none, none, none, none, none, none, none, some "approved", some 20,
   some 20, none⟩

/-- An update event for id 1 that changes only the status. -/
def patchStay : RowPatch :=
  ⟨1, none, none, none, none, none, none, none, some "approved", none,
   some 11, none⟩

/-- The insert record `createSubmission` builds from `payLong` for user
7: the name is truncated to 100 characters. -/
def ins100 : InsertRecord :=
  ⟨String.mk (List.replicate 100 'a'), "Lee", "1 Main", "passport", "P123",
   none, 7, "pending"⟩

/-- The update payload built from `updIn1`. -/
def payAnne : UpdatePayload :=
  ⟨some "Anne", none, none, none, none, none, none, none⟩

/-! ### Helper lemmas -/

/-- An absent field is sanitised to the empty string. -/
lemma sanitizeField_none (cap : Nat) : sanitizeField cap none = "" := by
  simp [sanitizeField, sliceTo, jsTrim]

/-- Sanitised fields never exceed their cap. -/
lemma sanitizeField_length_le (cap : Nat) (v : Option String) :
    (sanitizeField cap v).length ≤ cap := by
  have h : (sanitizeField cap v).length =
      (List.take cap (jsTrim (v.getD "")).data).length := rfl
  rw [h, List.length_take]
  exact Nat.min_le_left _ _

/-- Membership through one insertion step of the descending sort. -/
lemma mem_insertDesc {a x : Submission} {l : List Submission} :
    a ∈ insertDesc x l ↔ a = x ∨ a ∈ l := by
  induction l with
  | nil => simp [insertDesc]
  | cons y ys ih =>
    rw [insertDesc]
    by_cases h : x.created_at < y.created_at
    · rw [if_pos h]
      simp only [List.mem_cons, ih]
      tauto
    · rw [if_neg h]
      simp [List.mem_cons]

/-- Unfolding the descending sort on a cons cell. -/
lemma sortByCreatedDesc_cons (y : Submission) (ys : List Submission) :
    sortByCreatedDesc (y :: ys) = insertDesc y (sortByCreatedDesc ys) := rfl

/-- The descending sort neither adds nor removes records. -/
lemma mem_sortByCreatedDesc {a : Submission} {l : List Submission} :
    a ∈ sortByCreatedDesc l ↔ a ∈ l := by
  induction l with
  | nil => simp [sortByCreatedDesc]
  | cons y ys ih =>
    rw [sortByCreatedDesc_cons]
    simp [mem_insertDesc, ih]

/-- Inserting into a descending-sorted list keeps it sorted. -/
lemma sortedDesc_insertDesc {x : Submission} {l : List Submission}
    (h : SortedDesc l) : SortedDesc (insertDesc x l) := by
  induction l with
  | nil => simp [insertDesc, SortedDesc]
  | cons y ys ih =>
    rw [insertDesc]
    have h' := List.pairwise_cons.mp h
    by_cases hc : x.created_at < y.created_at
    · rw [if_pos hc]
      refine List.pairwise_cons.mpr ⟨?_, ih h'.2⟩
      intro b hb
      rcases mem_insertDesc.mp hb with rfl | hb'
      · exact Nat.le_of_lt hc
      · exact h'.1 b hb'
    · rw [if_neg hc]
      refine List.pairwise_cons.mpr ⟨?_, h⟩
      intro b hb
      rcases List.mem_cons.mp hb with rfl | hb'
      · exact Nat.le_of_not_lt hc
      · exact Nat.le_trans (h'.1 b hb') (Nat.le_of_not_lt hc)

/-- The descending sort produces a descending-sorted list. -/
lemma sortedDesc_sortByCreatedDesc (l : List Submission) :
    SortedDesc (sortByCreatedDesc l) := by
  induction l with
  | nil => simp [sortByCreatedDesc, SortedDesc]
  | cons y ys ih =>
    rw [sortByCreatedDesc_cons]
    exact sortedDesc_insertDesc ih

/-- Inserting a record strictly newer than every list element prepends
it. -/
lemma insertDesc_eq_cons_of_max {x : Submission} {l : List Submission}
    (h : ∀ a ∈ l, a.created_at < x.created_at) :
    insertDesc x l = x :: l := by
  cases l with
  | nil => rfl
  | cons y ys =>
    rw [insertDesc, if_neg (Nat.lt_asymm (h y (List.mem_cons_self y ys)))]

/-- In a descending-sorted list that contains `x` and whose every element
is `x` or strictly older, `x` is the head. -/
lemma head_eq_of_sorted_max {l : List Submission} {x : Submission}
    (hs : SortedDesc l) (hx : x ∈ l)
    (h : ∀ a ∈ l, a = x ∨ a.created_at < x.created_at) :
    l.head? = some x := by
  cases l with
  | nil => simp at hx
  | cons y t =>
    simp only [List.head?_cons, Option.some.injEq]
    rcases h y (List.mem_cons_self y t) with rfl | hy
    · rfl
    · exfalso
      rcases List.mem_cons.mp hx with rfl | hxt
      · exact Nat.lt_irrefl _ hy
      · exact Nat.lt_irrefl _
          (Nat.lt_of_le_of_lt ((List.pairwise_cons.mp hs).1 x hxt) hy)

/-- The audit-log write never touches the submissions table. -/
lemma writeAuditLog_subs (env : Env) (db : DB) (sid : Nat) (action : String)
    (notes : Option String) (actor : Option Nat) (now : Nat) :
    (writeAuditLog env db sid action notes actor now).1.subs = db.subs := by
  cases h : env.auditErr <;> simp [writeAuditLog, h]

/-- Every review operation short-circuits for a non-admin caller. -/
lemma reviewOp_gate (st act : String) (user : Option Nat) (isAdmin : Bool)
    (env : Env) (db : DB) (now : Nat) (sid : Option Nat)
    (notes : Option String) (h : user = none ∨ isAdmin = false) :
    reviewOp st act user isAdmin env db now sid notes =
      ⟨db, [], some "Admin access required", none, none⟩ := by
  rcases h with h | h <;> subst h <;> simp [reviewOp]

/-- Shape of a review operation whose status update succeeds on an
existing row. -/
lemma reviewOp_success_spec (st act : String) (uid sid now : Nat)
    (env : Env) (db : DB) (notes : Option String)
    (hu : env.updateErr = none)
    (hex : db.subs.any (fun s => s.id == sid) = true) :
    reviewOp st act (some uid) true env db now (some sid) notes =
      ⟨(writeAuditLog env (setStatusRows db sid st now) sid act notes
          (some uid) now).1,
       [.updateStatus sid st,
        .insertAudit (mkAuditEntry sid act notes (some uid) now)],
       none, some ⟨sid, st, now⟩,
       (writeAuditLog env (setStatusRows db sid st now) sid act notes
          (some uid) now).2⟩ := by
  simp [reviewOp, hu, hex]

/-- List form of the status-update projection lemma. -/
lemma find_map_setStatus (l : List Submission) (sid : Nat) (st : String)
    (now : Nat) (hex : l.any (fun s => s.id == sid) = true) :
    (((l.map (fun s =>
        if s.id == sid then { s with status := st, updated_at := now }
        else s)).find? (fun s => s.id == sid)).map Submission.status) =
      some st := by
  induction l with
  | nil => simp at hex
  | cons a t ih =>
    by_cases h : a.id = sid
    · have hb : (a.id == sid) = true := by simp [h]
      simp only [List.map_cons, hb, if_true]
      rw [List.find?_cons_of_pos]
      · simp
      · exact hb
    · have hb : (a.id == sid) = false := beq_false_of_ne h
      simp only [List.map_cons, hb, Bool.false_eq_true, if_false]
      rw [List.find?_cons_of_neg]
      · apply ih
        simpa [List.any_cons, hb] using hex
      · simp [hb]

/-- After the status update, every row carrying the target id has the
target status. -/
lemma setStatusRows_find (db : DB) (sid : Nat) (st : String) (now : Nat)
    (hex : db.subs.any (fun s => s.id == sid) = true) :
    (((setStatusRows db sid st now).subs.find?
        (fun s => s.id == sid)).map Submission.status) = some st :=
  find_map_setStatus db.subs sid st now hex

/-! ### Claim theorems -/

/-- In a review operation that updated the status of an existing row, the
final store has the target status on that row, whatever the audit write
did. -/
lemma reviewOp_final_status (st act : String) (uid sid now : Nat)
    (env : Env) (db : DB) (notes : Option String)
    (hu : env.updateErr = none)
    (hex : db.subs.any (fun s => s.id == sid) = true) :
    (((reviewOp st act (some uid) true env db now (some sid)
        notes).db.subs.find? (fun s => s.id == sid)).map
          Submission.status) = some st := by
  rw [reviewOp_success_spec st act uid sid now env db notes hu hex]
  show (((writeAuditLog env (setStatusRows db sid st now) sid act notes
      (some uid) now).1.subs.find? (fun s => s.id == sid)).map
        Submission.status) = some st
  rw [writeAuditLog_subs]
  exact setStatusRows_find db sid st now hex

/-- Parts of a review operation whose status update succeeded but whose
audit insert failed. -/
lemma reviewOp_auditFail_parts (st act : String) (uid sid now : Nat)
    (env : Env) (db : DB) (notes : Option String) (e : String)
    (hu : env.updateErr = none) (ha : env.auditErr = some e)
    (hex : db.subs.any (fun s => s.id == sid) = true) :
    (reviewOp st act (some uid) true env db now (some sid) notes).error =
      none ∧
    (reviewOp st act (some uid) true env db now (some sid) notes).dataRow =
      some ⟨sid, st, now⟩ ∧
    (reviewOp st act (some uid) true env db now (some sid)
      notes).auditWarning = some e ∧
    (reviewOp st act (some uid) true env db now (some sid) notes).db.logs =
      db.logs ∧
    (((reviewOp st act (some uid) true env db now (some sid)
        notes).db.subs.find? (fun s => s.id == sid)).map
          Submission.status) = some st := by
  refine ⟨?_, ?_, ?_, ?_, reviewOp_final_status st act uid sid now env db
    notes hu hex⟩ <;>
    rw [reviewOp_success_spec st act uid sid now env db notes hu hex] <;>
    simp [writeAuditLog, ha, setStatusRows]

/-- Claim C1: every insert record `createSubmission` sends for an
authenticated caller carries `status = "pending"` and `user_id` equal to
the caller's id, and so does the row returned on success — whatever
`status` or `user_id` values the payload supplied. -/
theorem createSubmission_forces_pending_and_owner
    (uid : Nat) (env : Env) (db : DB) (cache : List Submission)
    (freshId now : Nat) (p : KYCPayload) :
    (∀ ins : InsertRecord,
        RemoteOp.insertSubmission ins ∈
          (createSubmission (some uid) env db cache freshId now p).calls →
        ins.status = "pending" ∧ ins.user_id = uid) ∧
    (∀ row : Submission,
        (createSubmission (some uid) env db cache freshId now p).result =
          Res.ok row →
        row.status = "pending" ∧ row.user_id = uid) := by
  cases hdob : cleanDob p.dob with
  | error m =>
      constructor
      · intro ins hmem
        simp [createSubmission, hdob] at hmem
      · intro row hrow
        simp [createSubmission, hdob] at hrow
  | ok dobv =>
      cases hins : env.insertErr with
      | some e =>
          constructor
          · intro ins hmem
            simp [createSubmission, hdob, hins] at hmem
            subst hmem
            exact ⟨rfl, rfl⟩
          · intro row hrow
            simp [createSubmission, hdob, hins] at hrow
      | none =>
          constructor
          · intro ins hmem
            simp [createSubmission, hdob, hins, serverInsert] at hmem
            subst hmem
            exact ⟨rfl, rfl⟩
          · intro row hrow
            simp [createSubmission, hdob, hins, serverInsert] at hrow
            subst hrow
            exact ⟨rfl, rfl⟩

/-- Witness for C1 at a payload that supplies `status: 'approved'` and a
foreign `user_id`. -/
theorem createSubmission_forces_pending_and_owner_witness :
    (insRec1.status = "pending" ∧ insRec1.user_id = 7) ∧
    (row1.status = "pending" ∧ row1.user_id = 7) :=
  ⟨(createSubmission_forces_pending_and_owner 7 env0 ⟨[], []⟩ [] 1 10
      pay1).1 insRec1 (by decide),
   (createSubmission_forces_pending_and_owner 7 env0 ⟨[], []⟩ [] 1 10
      pay1).2 row1 (by decide)⟩

/-- Claim C5: every review-workflow operation invoked by a caller who is
signed out or not admin returns the "Admin access required" error with no
remote call and no store change. -/
theorem adminOps_gate_without_remote_calls
    (user : Option Nat) (isAdmin : Bool) (env : Env) (db : DB) (now : Nat)
    (sid : Option Nat) (notes : Option String) (f : Filters)
    (page pageSize : Nat) (h : user = none ∨ isAdmin = false) :
    fetchSubmissions user isAdmin env db f page pageSize =
      ⟨[], some "Admin access required", none, 0⟩ ∧
    fetchSubmissionById user isAdmin env db sid =
      ([], Res.err "Admin access required") ∧
    approveSubmission user isAdmin env db now sid notes =
      ⟨db, [], some "Admin access required", none, none⟩ ∧
    rejectSubmission user isAdmin env db now sid notes =
      ⟨db, [], some "Admin access required", none, none⟩ ∧
    requestMoreInfo user isAdmin env db now sid notes =
      ⟨db, [], some "Admin access required", none, none⟩ := by
  have hc : (user.isNone || !isAdmin) = true := by
    rcases h with h | h <;> subst h <;> simp
  refine ⟨?_, ?_, ?_, ?_, ?_⟩ <;>
    simp [fetchSubmissions, fetchSubmissionById, approveSubmission,
          rejectSubmission, requestMoreInfo, reviewOp, hc]

/-- Claim C3: when the status update succeeds but the audit-log insert
fails, approve/reject/request-info still report success with the updated
data, the status change stays in the store, no audit row is written, and
the audit failure surfaces only in the local warning. -/
theorem reviewOps_audit_failure_non_fatal
    (uid sid now : Nat) (env : Env) (db : DB) (notes : Option String)
    (e : String) (hu : env.updateErr = none) (ha : env.auditErr = some e)
    (hex : db.subs.any (fun s => s.id == sid) = true) :
    ((approveSubmission (some uid) true env db now (some sid) notes).error =
        none ∧
     (approveSubmission (some uid) true env db now (some sid)
       notes).dataRow = some ⟨sid, "approved", now⟩ ∧
     (approveSubmission (some uid) true env db now (some sid)
       notes).auditWarning = some e ∧
     (approveSubmission (some uid) true env db now (some sid)
       notes).db.logs = db.logs ∧
     (((approveSubmission (some uid) true env db now (some sid)
         notes).db.subs.find? (fun s => s.id == sid)).map
           Submission.status) = some "approved") ∧
    ((rejectSubmission (some uid) true env db now (some sid) notes).error =
        none ∧
     (rejectSubmission (some uid) true env db now (some sid)
       notes).dataRow = some ⟨sid, "rejected", now⟩ ∧
     (rejectSubmission (some uid) true env db now (some sid)
       notes).auditWarning = some e ∧
     (rejectSubmission (some uid) true env db now (some sid)
       notes).db.logs = db.logs ∧
     (((rejectSubmission (some uid) true env db now (some sid)
         notes).db.subs.find? (fun s => s.id == sid)).map
           Submission.status) = some "rejected") ∧
    ((requestMoreInfo (some uid) true env db now (some sid) notes).error =
        none ∧
     (requestMoreInfo (some uid) true env db now (some sid)
       notes).dataRow = some ⟨sid, "pending", now⟩ ∧
     (requestMoreInfo (some uid) true env db now (some sid)
       notes).auditWarning = some e ∧
     (requestMoreInfo (some uid) true env db now (some sid)
       notes).db.logs = db.logs ∧
     (((requestMoreInfo (some uid) true env db now (some sid)
         notes).db.subs.find? (fun s => s.id == sid)).map
           Submission.status) = some "pending") :=
  ⟨reviewOp_auditFail_parts "approved" "approved" uid sid now env db notes
     e hu ha hex,
   reviewOp_auditFail_parts "rejected" "rejected" uid sid now env db notes
     e hu ha hex,
   reviewOp_auditFail_parts "pending" "request_info" uid sid now env db
     notes e hu ha hex⟩

/-- Witness for C3: approval of the pending `sub1` while the audit insert
fails. -/
theorem reviewOps_audit_failure_non_fatal_witness :
    (approveSubmission (some 9) true envAuditFail db1 30 (some 1)
      (some "looks good")).error = none ∧
    (approveSubmission (some 9) true envAuditFail db1 30 (some 1)
      (some "looks good")).auditWarning = some "audit insert failed" ∧
    (((approveSubmission (some 9) true envAuditFail db1 30 (some 1)
        (some "looks good")).db.subs.find? (fun s => s.id == 1)).map
          Submission.status) = some "approved" ∧
    (approveSubmission (some 9) true envAuditFail db1 30 (some 1)
      (some "looks good")).db.logs = db1.logs :=
  ⟨(reviewOps_audit_failure_non_fatal 9 1 30 envAuditFail db1
      (some "looks good") "audit insert failed" rfl rfl (by decide)).1.1,
   (reviewOps_audit_failure_non_fatal 9 1 30 envAuditFail db1
      (some "looks good") "audit insert failed" rfl rfl
      (by decide)).1.2.2.1,
   (reviewOps_audit_failure_non_fatal 9 1 30 envAuditFail db1
      (some "looks good") "audit insert failed" rfl rfl
      (by decide)).1.2.2.2.2,
   (reviewOps_audit_failure_non_fatal 9 1 30 envAuditFail db1
      (some "looks good") "audit insert failed" rfl rfl
      (by decide)).1.2.2.2.1⟩

/-- Claim C4 counterexample: `rejectSubmission` flips an already approved
submission to rejected, so a transition out of `approved` is exposed. -/
theorem approved_submission_can_be_rejected :
    dbA.subs.map Submission.status = ["approved"] ∧
    (rejectSubmission (some 9) true env0 dbA 30 (some 2) (some "bad")).error
      = none ∧
    ((rejectSubmission (some 9) true env0 dbA 30 (some 2)
      (some "bad")).db.subs.map Submission.status) = ["rejected"] := by
  decide

/-- Claim C4 (amended): each review operation sets the target submission
unconditionally to its fixed status — approve to `approved`, reject to
`rejected`, request-info to `pending` — without consulting the current
status, so transitions out of `approved`/`rejected` are possible. -/
theorem reviewOps_status_targets_unconditional
    (uid sid now : Nat) (env : Env) (db : DB) (notes : Option String)
    (hu : env.updateErr = none)
    (hex : db.subs.any (fun s => s.id == sid) = true) :
    (((approveSubmission (some uid) true env db now (some sid)
        notes).db.subs.find? (fun s => s.id == sid)).map
          Submission.status) = some "approved" ∧
    (((rejectSubmission (some uid) true env db now (some sid)
        notes).db.subs.find? (fun s => s.id == sid)).map
          Submission.status) = some "rejected" ∧
    (((requestMoreInfo (some uid) true env db now (some sid)
        notes).db.subs.find? (fun s => s.id == sid)).map
          Submission.status) = some "pending" :=
  ⟨reviewOp_final_status "approved" "approved" uid sid now env db notes hu
     hex,
   reviewOp_final_status "rejected" "rejected" uid sid now env db notes hu
     hex,
   reviewOp_final_status "pending" "request_info" uid sid now env db notes
     hu hex⟩

/-- Witness for amended C4 on the already approved `sub2`. -/
theorem reviewOps_status_targets_unconditional_witness :
    (((approveSubmission (some 9) true env0 dbA 31 (some 2)
        none).db.subs.find? (fun s => s.id == 2)).map Submission.status) =
      some "approved" ∧
    (((rejectSubmission (some 9) true env0 dbA 31 (some 2)
        none).db.subs.find? (fun s => s.id == 2)).map Submission.status) =
      some "rejected" ∧
    (((requestMoreInfo (some 9) true env0 dbA 31 (some 2)
        none).db.subs.find? (fun s => s.id == 2)).map Submission.status) =
      some "pending" :=
  reviewOps_status_targets_unconditional 9 2 31 env0 dbA none rfl
    (by decide)

/-- Witness for C5: a signed-out caller against a non-empty store. -/
theorem adminOps_gate_without_remote_calls_witness :
    fetchSubmissions none true env0 db1 filtersAll 1 10 =
      ⟨[], some "Admin access required", none, 0⟩ ∧
    fetchSubmissionById none true env0 db1 (some 1) =
      ([], Res.err "Admin access required") ∧
    approveSubmission none true env0 db1 30 (some 1) (some "ok") =
      ⟨db1, [], some "Admin access required", none, none⟩ ∧
    rejectSubmission none true env0 db1 30 (some 1) (some "ok") =
      ⟨db1, [], some "Admin access required", none, none⟩ ∧
    requestMoreInfo none true env0 db1 30 (some 1) (some "ok") =
      ⟨db1, [], some "Admin access required", none, none⟩ :=
  adminOps_gate_without_remote_calls none true env0 db1 30 (some 1)
    (some "ok") filtersAll 1 10 (Or.inl rfl)

/-- With a valid (or absent) dob, `createSubmission` issues exactly one
insert call, carrying the sanitised fields and the forced status/owner. -/
lemma createSubmission_calls (uid : Nat) (env : Env) (db : DB)
    (cache : List Submission) (freshId now : Nat) (p : KYCPayload)
    (dobv : Option String) (hdob : cleanDob p.dob = .ok dobv) :
    (createSubmission (some uid) env db cache freshId now p).calls =
      [RemoteOp.insertSubmission
        ⟨sanitizeField 100 p.first_name, sanitizeField 100 p.last_name,
         sanitizeField 500 p.address, sanitizeField 50 p.document_type,
         sanitizeField 100 p.document_number, dobv, uid, "pending"⟩] := by
  cases hins : env.insertErr with
  | some e => simp [createSubmission, hdob, hins]
  | none => simp [createSubmission, hdob, hins, serverInsert]

/-- With a valid payload, `updateSubmission` issues exactly one owned
update call with that payload. -/
lemma updateSubmission_calls (uid sid now : Nat) (env : Env) (db : DB)
    (cache : List Submission) (u : UpdateInput) (pay : UpdatePayload)
    (hb : buildUpdatePayload u = .ok pay) :
    (updateSubmission (some uid) env db cache now (some sid) u).calls =
      [RemoteOp.updateOwned sid uid pay] := by
  cases henv : env.updateErr with
  | some e => simp [updateSubmission, hb, henv]
  | none =>
    cases hso : serverUpdateOwned db sid uid pay now with
    | none => simp [updateSubmission, hb, henv, hso]
    | some r => simp [updateSubmission, hb, henv, hso]

/-- The non-dob fields of a successfully built update payload are the
sanitised forms of exactly the keys present in `updates`. -/
lemma buildUpdatePayload_fields (u : UpdateInput) (pay : UpdatePayload)
    (hb : buildUpdatePayload u = .ok pay) :
    pay.first_name = u.first_name.map (fun v => sanitizeField 100 (some v)) ∧
    pay.last_name = u.last_name.map (fun v => sanitizeField 100 (some v)) ∧
    pay.address = u.address.map (fun v => sanitizeField 500 (some v)) ∧
    pay.document_type =
      u.document_type.map (fun v => sanitizeField 50 (some v)) ∧
    pay.document_number =
      u.document_number.map (fun v => sanitizeField 100 (some v)) ∧
    pay.status = u.status.map (fun v => jsToLower (jsTrim v)) ∧
    pay.documents = u.documents := by
  rcases hu : u.dob with _ | (_ | s)
  · simp [buildUpdatePayload, hu] at hb
    subst hb
    simp
  · simp [buildUpdatePayload, hu] at hb
    subst hb
    simp
  · by_cases hs : s = ""
    · simp [buildUpdatePayload, hu, hs] at hb
      subst hb
      simp
    · by_cases hr : dobRegexMatch s
      · simp [buildUpdatePayload, hu, hs, hr] at hb
        subst hb
        simp
      · simp [buildUpdatePayload, hu, hs, hr] at hb

/-- Claim C2 counterexample: `rejectSubmission(id, "")` does not fail
validation — the status update is issued and an audit row with empty notes
is written. -/
theorem reject_empty_notes_succeeds :
    (rejectSubmission (some 9) true env0 db1 30 (some 1) (some "")).error =
      none ∧
    ((rejectSubmission (some 9) true env0 db1 30 (some 1)
      (some "")).db.subs.map Submission.status) = ["rejected"] ∧
    (rejectSubmission (some 9) true env0 db1 30 (some 1) (some "")).db.logs
      = [⟨1, "rejected", "", some 9, 30⟩] ∧
    (rejectSubmission (some 9) true env0 db1 30 (some 1) (some "")).calls ≠
      [] := by
  decide

/-- Claim C2 (amended): the hooks `rejectSubmission`/`requestMoreInfo`
perform no notes validation — with empty notes the status update is issued
and an audit row with empty notes is written; the only notes gate is in
the review screen's `handleReject`/`handleRequestInfo`, which refuse a
trimmed length under 3 with an error message, invoking no operation and
issuing no remote call. -/
theorem notes_validated_in_ui_not_in_hooks
    (uid sid now : Nat) (env : Env) (db : DB) (notes : String)
    (hu : env.updateErr = none) (ha : env.auditErr = none)
    (hex : db.subs.any (fun s => s.id == sid) = true)
    (hshort : (jsTrim notes).length < 3) :
    ((rejectSubmission (some uid) true env db now (some sid)
       (some "")).error = none ∧
     (rejectSubmission (some uid) true env db now (some sid)
       (some "")).db.logs =
         db.logs ++ [⟨sid, "rejected", "", some uid, now⟩] ∧
     (rejectSubmission (some uid) true env db now (some sid)
       (some "")).calls ≠ []) ∧
    ((requestMoreInfo (some uid) true env db now (some sid)
       (some "")).error = none ∧
     (requestMoreInfo (some uid) true env db now (some sid)
       (some "")).db.logs =
         db.logs ++ [⟨sid, "request_info", "", some uid, now⟩]) ∧
    handleReject (some uid) true env db now (some sid) notes =
      ⟨db, [],
       some "Please provide rejection reason in notes (min 3 chars).",
       none, none⟩ ∧
    handleRequestInfo (some uid) true env db now (some sid) notes =
      ⟨db, [],
       some "Please describe what information is required (min 3 chars).",
       none, none⟩ := by
  have hrej := reviewOp_success_spec "rejected" "rejected" uid sid now env
    db (some "") hu hex
  have hreq := reviewOp_success_spec "pending" "request_info" uid sid now
    env db (some "") hu hex
  refine ⟨⟨?_, ?_, ?_⟩, ⟨?_, ?_⟩, ?_, ?_⟩
  · show (reviewOp "rejected" "rejected" (some uid) true env db now
        (some sid) (some "")).error = none
    rw [hrej]
  · show (reviewOp "rejected" "rejected" (some uid) true env db now
        (some sid) (some "")).db.logs =
      db.logs ++ [⟨sid, "rejected", "", some uid, now⟩]
    rw [hrej]
    simp [writeAuditLog, ha, setStatusRows, mkAuditEntry]
  · show (reviewOp "rejected" "rejected" (some uid) true env db now
        (some sid) (some "")).calls ≠ []
    rw [hrej]
    simp
  · show (reviewOp "pending" "request_info" (some uid) true env db now
        (some sid) (some "")).error = none
    rw [hreq]
  · show (reviewOp "pending" "request_info" (some uid) true env db now
        (some sid) (some "")).db.logs =
      db.logs ++ [⟨sid, "request_info", "", some uid, now⟩]
    rw [hreq]
    simp [writeAuditLog, ha, setStatusRows, mkAuditEntry]
  · simp [handleReject, hshort]
  · simp [handleRequestInfo, hshort]

/-- Witness for amended C2 with empty notes against the pending `sub1`. -/
theorem notes_validated_in_ui_not_in_hooks_witness :
    ((rejectSubmission (some 9) true env0 db1 30 (some 1)
       (some "")).error = none ∧
     (rejectSubmission (some 9) true env0 db1 30 (some 1)
       (some "")).db.logs =
         db1.logs ++ [⟨1, "rejected", "", some 9, 30⟩] ∧
     (rejectSubmission (some 9) true env0 db1 30 (some 1)
       (some "")).calls ≠ []) ∧
    ((requestMoreInfo (some 9) true env0 db1 30 (some 1)
       (some "")).error = none ∧
     (requestMoreInfo (some 9) true env0 db1 30 (some 1)
       (some "")).db.logs =
         db1.logs ++ [⟨1, "request_info", "", some 9, 30⟩]) ∧
    handleReject (some 9) true env0 db1 30 (some 1) "" =
      ⟨db1, [],
       some "Please provide rejection reason in notes (min 3 chars).",
       none, none⟩ ∧
    handleRequestInfo (some 9) true env0 db1 30 (some 1) "" =
      ⟨db1, [],
       some "Please describe what information is required (min 3 chars).",
       none, none⟩ :=
  notes_validated_in_ui_not_in_hooks 9 1 30 env0 db1 "" rfl rfl (by decide)
    (by decide)

/-- Claim C6 counterexample: an update with `dob` absent is accepted but
omits the dob field from the payload instead of writing null — the stored
dob stays `1990-01-01`. -/
theorem update_absent_dob_not_stored_as_null :
    updIn1.dob = none ∧
    resError (updateSubmission (some 7) env0 db1 [sub1] 11 (some 1)
      updIn1).result = none ∧
    (updateSubmission (some 7) env0 db1 [sub1] 11 (some 1) updIn1).calls =
      [RemoteOp.updateOwned 1 7
        ⟨some "Anne", none, none, none, none, none, none, none⟩] ∧
    ((updateSubmission (some 7) env0 db1 [sub1] 11 (some 1)
      updIn1).db.subs.map Submission.dob) = [some "1990-01-01"] := by
  decide

/-- Claim C6 (amended): a present, non-empty dob that fails the
`YYYY-MM-DD` regex aborts create and update with the format error before
any remote call; create stores an absent or empty dob as null; update
stores an explicitly supplied null/empty dob as null but omits the dob
field entirely when the key is absent. -/
theorem dob_format_validated_before_network
    (uid sid : Nat) (env : Env) (db : DB) (cache : List Submission)
    (freshId now : Nat) (p : KYCPayload) (u : UpdateInput) (s : String) :
    (p.dob = some s → s ≠ "" → dobRegexMatch s = false →
      createSubmission (some uid) env db cache freshId now p =
        ⟨db, [], .err "DOB must be in YYYY-MM-DD format", cache⟩) ∧
    (u.dob = some (some s) → s ≠ "" → dobRegexMatch s = false →
      updateSubmission (some uid) env db cache now (some sid) u =
        ⟨db, [], .err "DOB must be in YYYY-MM-DD format", cache⟩) ∧
    ((p.dob = none ∨ p.dob = some "") →
      ∀ ins, RemoteOp.insertSubmission ins ∈
          (createSubmission (some uid) env db cache freshId now p).calls →
        ins.dob = none) ∧
    ((u.dob = some none ∨ u.dob = some (some "")) →
      ∀ sid2 uid2 pay, RemoteOp.updateOwned sid2 uid2 pay ∈
          (updateSubmission (some uid) env db cache now (some sid)
            u).calls →
        pay.dob = some none) ∧
    (u.dob = none →
      ∀ sid2 uid2 pay, RemoteOp.updateOwned sid2 uid2 pay ∈
          (updateSubmission (some uid) env db cache now (some sid)
            u).calls →
        pay.dob = none) := by
  refine ⟨?_, ?_, ?_, ?_, ?_⟩
  · intro h hne hreg
    simp [createSubmission, cleanDob, h, hne, hreg]
  · intro h hne hreg
    simp [updateSubmission, buildUpdatePayload, h, hne, hreg]
  · intro h ins hmem
    have hc : cleanDob p.dob = .ok none := by
      rcases h with h | h <;> simp [cleanDob, h]
    rw [createSubmission_calls uid env db cache freshId now p none hc]
      at hmem
    simp at hmem
    subst hmem
    rfl
  · intro h sid2 uid2 pay hmem
    obtain ⟨pay0, hb, hdob0⟩ : ∃ pay0, buildUpdatePayload u = .ok pay0 ∧
        pay0.dob = some none := by
      rcases h with h | h <;> simp [buildUpdatePayload, h]
    rw [updateSubmission_calls uid sid now env db cache u pay0 hb] at hmem
    simp at hmem
    obtain ⟨-, -, rfl⟩ := hmem
    exact hdob0
  · intro h sid2 uid2 pay hmem
    obtain ⟨pay0, hb, hdob0⟩ : ∃ pay0, buildUpdatePayload u = .ok pay0 ∧
        pay0.dob = none := by
      simp [buildUpdatePayload, h]
    rw [updateSubmission_calls uid sid now env db cache u pay0 hb] at hmem
    simp at hmem
    obtain ⟨-, -, rfl⟩ := hmem
    exact hdob0

/-- Witness for amended C6: a malformed date aborts both operations, and
the accepted null/absent forms behave as stated. -/
theorem dob_format_validated_before_network_witness :
    (createSubmission (some 7) env0 db1 [] 2 11
        ⟨some "Ann", none, none, none, none, some "1990-1-01", none, none⟩
      = ⟨db1, [], .err "DOB must be in YYYY-MM-DD format", []⟩) ∧
    (updateSubmission (some 7) env0 db1 [] 11 (some 1)
        ⟨none, none, none, none, none, some (some "1990-1-01"), none, none⟩
      = ⟨db1, [], .err "DOB must be in YYYY-MM-DD format", []⟩) := by
  refine ⟨?_, ?_⟩
  · exact (dob_format_validated_before_network 7 1 env0 db1 [] 2 11
      ⟨some "Ann", none, none, none, none, some "1990-1-01", none, none⟩
      ⟨none, none, none, none, none, some (some "1990-1-01"), none, none⟩
      "1990-1-01").1 rfl (by decide) (by decide)
  · exact (dob_format_validated_before_network 7 1 env0 db1 [] 2 11
      ⟨some "Ann", none, none, none, none, some "1990-1-01", none, none⟩
      ⟨none, none, none, none, none, some (some "1990-1-01"), none, none⟩
      "1990-1-01").2.1 rfl (by decide) (by decide)

/-- Claim C7 counterexample: a 101-character first name is accepted
without any validation error — the insert is issued with the name silently
truncated to 100 characters. -/
theorem oversized_field_accepted_without_error :
    longName.length = 101 ∧
    resError (createSubmission (some 7) env0 ⟨[], []⟩ [] 1 10
      payLong).result = none ∧
    (createSubmission (some 7) env0 ⟨[], []⟩ [] 1 10 payLong).calls.length
      = 1 ∧
    ((createSubmission (some 7) env0 ⟨[], []⟩ [] 1 10 payLong).db.subs.map
      (fun s => s.first_name.length)) = [100] := by
  decide

/-- Claim C7 (amended): oversized fields never raise a validation error —
create and update trim and truncate each text field to its cap before the
remote call; with a valid dob the only create error is the remote insert
error. -/
theorem oversized_fields_truncated_not_rejected
    (uid sid : Nat) (env : Env) (db : DB) (cache : List Submission)
    (freshId now : Nat) (p : KYCPayload) (u : UpdateInput)
    (dobv : Option String) (pay : UpdatePayload)
    (hdob : cleanDob p.dob = .ok dobv)
    (hb : buildUpdatePayload u = .ok pay) :
    resError (createSubmission (some uid) env db cache freshId now
      p).result = env.insertErr ∧
    (createSubmission (some uid) env db cache freshId now p).calls ≠ [] ∧
    (∀ ins, RemoteOp.insertSubmission ins ∈
        (createSubmission (some uid) env db cache freshId now p).calls →
      ins.first_name.length ≤ 100 ∧ ins.last_name.length ≤ 100 ∧
      ins.address.length ≤ 500 ∧ ins.document_type.length ≤ 50 ∧
      ins.document_number.length ≤ 100) ∧
    (updateSubmission (some uid) env db cache now (some sid) u).calls =
      [RemoteOp.updateOwned sid uid pay] ∧
    (∀ v, pay.first_name = some v → v.length ≤ 100) ∧
    (∀ v, pay.last_name = some v → v.length ≤ 100) ∧
    (∀ v, pay.address = some v → v.length ≤ 500) ∧
    (∀ v, pay.document_type = some v → v.length ≤ 50) ∧
    (∀ v, pay.document_number = some v → v.length ≤ 100) := by
  obtain ⟨hf1, hf2, hf3, hf4, hf5, -, -⟩ :=
    buildUpdatePayload_fields u pay hb
  refine ⟨?_, ?_, ?_,
    updateSubmission_calls uid sid now env db cache u pay hb,
    ?_, ?_, ?_, ?_, ?_⟩
  · cases hins : env.insertErr with
    | some e => simp [createSubmission, hdob, hins, resError]
    | none => simp [createSubmission, hdob, hins, serverInsert, resError]
  · rw [createSubmission_calls uid env db cache freshId now p dobv hdob]
    simp
  · intro ins hmem
    rw [createSubmission_calls uid env db cache freshId now p dobv hdob]
      at hmem
    simp at hmem
    subst hmem
    exact ⟨sanitizeField_length_le _ _, sanitizeField_length_le _ _,
      sanitizeField_length_le _ _, sanitizeField_length_le _ _,
      sanitizeField_length_le _ _⟩
  · intro v hv
    rw [hf1] at hv
    obtain ⟨w, hw, rfl⟩ := Option.map_eq_some'.mp hv
    exact sanitizeField_length_le _ _
  · intro v hv
    rw [hf2] at hv
    obtain ⟨w, hw, rfl⟩ := Option.map_eq_some'.mp hv
    exact sanitizeField_length_le _ _
  · intro v hv
    rw [hf3] at hv
    obtain ⟨w, hw, rfl⟩ := Option.map_eq_some'.mp hv
    exact sanitizeField_length_le _ _
  · intro v hv
    rw [hf4] at hv
    obtain ⟨w, hw, rfl⟩ := Option.map_eq_some'.mp hv
    exact sanitizeField_length_le _ _
  · intro v hv
    rw [hf5] at hv
    obtain ⟨w, hw, rfl⟩ := Option.map_eq_some'.mp hv
    exact sanitizeField_length_le _ _

/-- Witness for amended C7 at the over-cap `payLong` and the update
`updIn1`. -/
theorem oversized_fields_truncated_not_rejected_witness :
    resError (createSubmission (some 7) env0 db1 [] 2 11 payLong).result =
      none ∧
    (updateSubmission (some 7) env0 db1 [] 11 (some 1) updIn1).calls =
      [RemoteOp.updateOwned 1 7 payAnne] ∧
    ("Anne" : String).length ≤ 100 :=
  ⟨(oversized_fields_truncated_not_rejected 7 1 env0 db1 [] 2 11 payLong
      updIn1 none payAnne rfl rfl).1,
   (oversized_fields_truncated_not_rejected 7 1 env0 db1 [] 2 11 payLong
      updIn1 none payAnne rfl rfl).2.2.2.1,
   (oversized_fields_truncated_not_rejected 7 1 env0 db1 [] 2 11 payLong
      updIn1 none payAnne rfl rfl).2.2.2.2.1 "Anne" (by decide)⟩

/-- Claim C10: every text field a write sends is the whitespace-trimmed,
cap-truncated form of the input — create writes all five fields with
absent ones defaulting to the empty string, update writes exactly the
present keys — so no stored text field ever exceeds its cap. -/
theorem stored_text_fields_trimmed_and_capped
    (uid sid : Nat) (env : Env) (db : DB) (cache : List Submission)
    (freshId now : Nat) (p : KYCPayload) (u : UpdateInput) :
    (∀ ins, RemoteOp.insertSubmission ins ∈
        (createSubmission (some uid) env db cache freshId now p).calls →
      ins.first_name = sanitizeField 100 p.first_name ∧
      ins.last_name = sanitizeField 100 p.last_name ∧
      ins.address = sanitizeField 500 p.address ∧
      ins.document_type = sanitizeField 50 p.document_type ∧
      ins.document_number = sanitizeField 100 p.document_number ∧
      ins.first_name.length ≤ 100 ∧ ins.last_name.length ≤ 100 ∧
      ins.address.length ≤ 500 ∧ ins.document_type.length ≤ 50 ∧
      ins.document_number.length ≤ 100) ∧
    (∀ sid2 uid2 pay, RemoteOp.updateOwned sid2 uid2 pay ∈
        (updateSubmission (some uid) env db cache now (some sid)
          u).calls →
      pay.first_name =
        u.first_name.map (fun v => sanitizeField 100 (some v)) ∧
      pay.last_name =
        u.last_name.map (fun v => sanitizeField 100 (some v)) ∧
      pay.address = u.address.map (fun v => sanitizeField 500 (some v)) ∧
      pay.document_type =
        u.document_type.map (fun v => sanitizeField 50 (some v)) ∧
      pay.document_number =
        u.document_number.map (fun v => sanitizeField 100 (some v))) ∧
    (∀ cap, sanitizeField cap none = "") := by
  refine ⟨?_, ?_, sanitizeField_none⟩
  · intro ins hmem
    cases hdob : cleanDob p.dob with
    | error m => simp [createSubmission, hdob] at hmem
    | ok dobv =>
      rw [createSubmission_calls uid env db cache freshId now p dobv hdob]
        at hmem
      simp at hmem
      subst hmem
      exact ⟨rfl, rfl, rfl, rfl, rfl, sanitizeField_length_le _ _,
        sanitizeField_length_le _ _, sanitizeField_length_le _ _,
        sanitizeField_length_le _ _, sanitizeField_length_le _ _⟩
  · intro sid2 uid2 pay hmem
    cases hb : buildUpdatePayload u with
    | error m => simp [updateSubmission, hb] at hmem
    | ok pay0 =>
      rw [updateSubmission_calls uid sid now env db cache u pay0 hb]
        at hmem
      simp at hmem
      obtain ⟨-, -, rfl⟩ := hmem
      obtain ⟨h1, h2, h3, h4, h5, -, -⟩ :=
        buildUpdatePayload_fields u pay hb
      exact ⟨h1, h2, h3, h4, h5⟩

/-- Witness for C10 at the over-cap create payload and the partial
update. -/
theorem stored_text_fields_trimmed_and_capped_witness :
    (ins100.first_name = sanitizeField 100 payLong.first_name ∧
     ins100.last_name = sanitizeField 100 payLong.last_name ∧
     ins100.address = sanitizeField 500 payLong.address ∧
     ins100.document_type = sanitizeField 50 payLong.document_type ∧
     ins100.document_number = sanitizeField 100 payLong.document_number ∧
     ins100.first_name.length ≤ 100 ∧ ins100.last_name.length ≤ 100 ∧
     ins100.address.length ≤ 500 ∧ ins100.document_type.length ≤ 50 ∧
     ins100.document_number.length ≤ 100) ∧
    (payAnne.first_name =
       updIn1.first_name.map (fun v => sanitizeField 100 (some v)) ∧
     payAnne.last_name =
       updIn1.last_name.map (fun v => sanitizeField 100 (some v)) ∧
     payAnne.address =
       updIn1.address.map (fun v => sanitizeField 500 (some v)) ∧
     payAnne.document_type =
       updIn1.document_type.map (fun v => sanitizeField 50 (some v)) ∧
     payAnne.document_number =
       updIn1.document_number.map (fun v => sanitizeField 100 (some v))) ∧
    sanitizeField 3 none = "" :=
  ⟨(stored_text_fields_trimmed_and_capped 7 1 env0 db1 [] 2 11 payLong
      updIn1).1 ins100 (by decide),
   (stored_text_fields_trimmed_and_capped 7 1 env0 db1 [] 2 11 payLong
      updIn1).2.1 1 7 payAnne (by decide),
   (stored_text_fields_trimmed_and_capped 7 1 env0 db1 [] 2 11 payLong
      updIn1).2.2 3⟩

/-- Each field of `{ ...s, ...newRow }`: a key present in the event wins;
an absent key keeps the cached value. -/
lemma mergeRow_fields (s : Submission) (p : RowPatch) :
    (mergeRow s p).id = p.id ∧
    (∀ v, p.user_id = some v → (mergeRow s p).user_id = v) ∧
    (p.user_id = none → (mergeRow s p).user_id = s.user_id) ∧
    (∀ v, p.first_name = some v → (mergeRow s p).first_name = v) ∧
    (p.first_name = none → (mergeRow s p).first_name = s.first_name) ∧
    (∀ v, p.last_name = some v → (mergeRow s p).last_name = v) ∧
    (p.last_name = none → (mergeRow s p).last_name = s.last_name) ∧
    (∀ v, p.dob = some v → (mergeRow s p).dob = v) ∧
    (p.dob = none → (mergeRow s p).dob = s.dob) ∧
    (∀ v, p.address = some v → (mergeRow s p).address = v) ∧
    (p.address = none → (mergeRow s p).address = s.address) ∧
    (∀ v, p.document_type = some v → (mergeRow s p).document_type = v) ∧
    (p.document_type = none →
      (mergeRow s p).document_type = s.document_type) ∧
    (∀ v, p.document_number = some v →
      (mergeRow s p).document_number = v) ∧
    (p.document_number = none →
      (mergeRow s p).document_number = s.document_number) ∧
    (∀ v, p.status = some v → (mergeRow s p).status = v) ∧
    (p.status = none → (mergeRow s p).status = s.status) ∧
    (∀ v, p.created_at = some v → (mergeRow s p).created_at = v) ∧
    (p.created_at = none → (mergeRow s p).created_at = s.created_at) ∧
    (∀ v, p.updated_at = some v → (mergeRow s p).updated_at = v) ∧
    (p.updated_at = none → (mergeRow s p).updated_at = s.updated_at) ∧
    (∀ v, p.documents = some v → (mergeRow s p).documents = v) ∧
    (p.documents = none → (mergeRow s p).documents = s.documents) := by
  refine ⟨rfl, ?_, ?_, ?_, ?_, ?_, ?_, ?_, ?_, ?_, ?_, ?_, ?_, ?_, ?_,
    ?_, ?_, ?_, ?_, ?_, ?_, ?_, ?_⟩ <;>
    (intros; simp [mergeRow, *])

/-- An update event never moves a record: the id sequence of the cache is
unchanged. -/
lemma applyUpdateEvent_ids (p : RowPatch) (prev : List Submission) :
    (applyUpdateEvent p prev).map Submission.id = prev.map Submission.id
    := by
  unfold applyUpdateEvent
  rw [List.map_map]
  apply List.map_congr_left
  intro t ht
  cases hb : (t.id == p.id) with
  | false => simp [Function.comp, hb]
  | true =>
      simp [Function.comp, hb, mergeRow]
      exact (beq_iff_eq.mp hb).symm

/-- An update event that does not carry `created_at` preserves the
descending order of the cache. -/
lemma applyUpdateEvent_sorted (p : RowPatch) (prev : List Submission)
    (hc : p.created_at = none) (hs : SortedDesc prev) :
    SortedDesc (applyUpdateEvent p prev) := by
  have hf : ∀ t : Submission,
      ((fun s => if s.id == p.id then mergeRow s p else s) t).created_at =
        t.created_at := by
    intro t
    cases hb : (t.id == p.id) <;> simp [hb, mergeRow, hc]
  unfold applyUpdateEvent SortedDesc
  rw [List.pairwise_map]
  refine hs.imp ?_
  intro a b hab
  rw [hf a, hf b]
  exact hab

/-- Claim C8 counterexample: an update event that moves `created_at` ahead
of every cached record leaves the record in place — the cache is not
re-sorted, so its position no longer reflects the merged `created_at`. -/
theorem updateEvent_does_not_resort :
    ((applyUpdateEvent patchMove [subA, subX]).map Submission.id) = [1, 2] ∧
    ((applyUpdateEvent patchMove [subA, subX]).map Submission.created_at) =
      [10, 20] ∧
    ¬ StrictSortedDesc (applyUpdateEvent patchMove [subA, subX]) ∧
    ¬ SortedDesc (applyUpdateEvent patchMove [subA, subX]) := by
  decide

/-- Claim C8 (amended): after an update event for record X, the merged
record takes the event's value on every key the event carries and keeps
the local value on every absent key; the event leaves every record's
position unchanged (update events never re-sort), so the position reflects
the merged `created_at` exactly when the event does not alter `created_at`
— a sorted cache stays sorted in that case. -/
theorem updateEvent_merge_law (p : RowPatch) (prev : List Submission)
    (s : Submission) :
    ((mergeRow s p).id = p.id ∧
     (∀ v, p.user_id = some v → (mergeRow s p).user_id = v) ∧
     (p.user_id = none → (mergeRow s p).user_id = s.user_id) ∧
     (∀ v, p.first_name = some v → (mergeRow s p).first_name = v) ∧
     (p.first_name = none → (mergeRow s p).first_name = s.first_name) ∧
     (∀ v, p.last_name = some v → (mergeRow s p).last_name = v) ∧
     (p.last_name = none → (mergeRow s p).last_name = s.last_name) ∧
     (∀ v, p.dob = some v → (mergeRow s p).dob = v) ∧
     (p.dob = none → (mergeRow s p).dob = s.dob) ∧
     (∀ v, p.address = some v → (mergeRow s p).address = v) ∧
     (p.address = none → (mergeRow s p).address = s.address) ∧
     (∀ v, p.document_type = some v → (mergeRow s p).document_type = v) ∧
     (p.document_type = none →
       (mergeRow s p).document_type = s.document_type) ∧
     (∀ v, p.document_number = some v →
       (mergeRow s p).document_number = v) ∧
     (p.document_number = none →
       (mergeRow s p).document_number = s.document_number) ∧
     (∀ v, p.status = some v → (mergeRow s p).status = v) ∧
     (p.status = none → (mergeRow s p).status = s.status) ∧
     (∀ v, p.created_at = some v → (mergeRow s p).created_at = v) ∧
     (p.created_at = none → (mergeRow s p).created_at = s.created_at) ∧
     (∀ v, p.updated_at = some v → (mergeRow s p).updated_at = v) ∧
     (p.updated_at = none → (mergeRow s p).updated_at = s.updated_at) ∧
     (∀ v, p.documents = some v → (mergeRow s p).documents = v) ∧
     (p.documents = none → (mergeRow s p).documents = s.documents)) ∧
    (applyUpdateEvent p prev).map Submission.id = prev.map Submission.id ∧
    (p.created_at = none → SortedDesc prev →
      SortedDesc (applyUpdateEvent p prev)) :=
  ⟨mergeRow_fields s p, applyUpdateEvent_ids p prev,
   fun hc hs => applyUpdateEvent_sorted p prev hc hs⟩

/-- Witness for amended C8: a status-only event against the two-record
cache. -/
theorem updateEvent_merge_law_witness :
    (mergeRow subA patchStay).status = "approved" ∧
    (mergeRow subA patchStay).created_at = subA.created_at ∧
    (applyUpdateEvent patchStay [subA, subX]).map Submission.id =
      ([subA, subX].map Submission.id) ∧
    SortedDesc (applyUpdateEvent patchStay [subA, subX]) := by
  have h := updateEvent_merge_law patchStay [subA, subX] subA
  exact ⟨h.1.2.2.2.2.2.2.2.2.2.2.2.2.2.2.2.1 "approved" rfl,
    h.1.2.2.2.2.2.2.2.2.2.2.2.2.2.2.2.2.2.2.1 rfl,
    h.2.1, h.2.2 rfl (by decide)⟩

/-- Claim C9 counterexample: with two records sharing one `created_at`,
the owner's list and the re-sorted cache after an insert event are
descending but not strictly descending. -/
theorem ownerList_ties_not_strict :
    ((fetchMySubmissions (some 7) env0 dbT).cache.map
      Submission.created_at) = [5, 5] ∧
    ¬ StrictSortedDesc (fetchMySubmissions (some 7) env0 dbT).cache ∧
    ((applyInsertEvent subT2 [subT1]).map Submission.created_at) = [5, 5] ∧
    ¬ StrictSortedDesc (applyInsertEvent subT2 [subT1]) := by
  decide

/-- Claim C9 (amended): the owner's list is always sorted by `created_at`
descending, non-strictly — records with equal timestamps may appear
adjacent — both as returned and as cached by `fetchMySubmissions`; after
a realtime insert event, a record strictly newer than every cached record
ends up at index 0. -/
theorem ownerList_sorted_desc_insert_newest_first
    (uid : Nat) (env : Env) (db : DB) (newRow : Submission)
    (prev : List Submission)
    (hnew : ∀ s ∈ prev, s.created_at < newRow.created_at) :
    SortedDesc (fetchMySubmissions (some uid) env db).cache ∧
    (∀ rows, (fetchMySubmissions (some uid) env db).result = Res.ok rows →
      SortedDesc rows) ∧
    (applyInsertEvent newRow prev).head? = some newRow := by
  refine ⟨?_, ?_, ?_⟩
  · cases hf : env.fetchErr with
    | some e => simp [fetchMySubmissions, hf]
    | none =>
        simp only [fetchMySubmissions, hf]
        exact sortedDesc_sortByCreatedDesc _
  · intro rows hr
    cases hf : env.fetchErr with
    | some e => simp [fetchMySubmissions, hf] at hr
    | none =>
        simp [fetchMySubmissions, hf, serverListFor] at hr
        subst hr
        exact sortedDesc_sortByCreatedDesc _
  · unfold applyInsertEvent
    cases hb : prev.any (fun s => s.id == newRow.id) with
    | false =>
        simp only [Bool.false_eq_true, if_false]
        rw [sortByCreatedDesc_cons, insertDesc_eq_cons_of_max]
        · rfl
        · intro a ha
          exact hnew a (mem_sortByCreatedDesc.mp ha)
    | true =>
        simp only [if_true]
        apply head_eq_of_sorted_max (sortedDesc_sortByCreatedDesc _)
        · obtain ⟨t, ht, hts⟩ := List.any_eq_true.mp hb
          refine mem_sortByCreatedDesc.mpr (List.mem_map.mpr ⟨t, ht, ?_⟩)
          simp [hts]
        · intro a ha
          obtain ⟨t, ht, hmap⟩ :=
            List.mem_map.mp (mem_sortByCreatedDesc.mp ha)
          cases htb : (t.id == newRow.id) with
          | true =>
              left
              rw [← hmap]
              simp [htb]
          | false =>
              right
              rw [← hmap]
              simp only [htb, Bool.false_eq_true, if_false]
              exact hnew t ht

/-- Witness for amended C9: one cached record, an insert event strictly
newer. -/
theorem ownerList_sorted_desc_insert_newest_first_witness :
    SortedDesc (fetchMySubmissions (some 7) env0 db1).cache ∧
    (applyInsertEvent subA [subX]).head? = some subA :=
  ⟨(ownerList_sorted_desc_insert_newest_first 7 env0 db1 subA [subX]
      (by decide)).1,
   (ownerList_sorted_desc_insert_newest_first 7 env0 db1 subA [subX]
      (by decide)).2.2⟩

end EKYC
